import Mathlib

/-!
Verification of the Radleys Carousel Connect device driver
(`PyLabware/devices/radleys_RR91207.py`).

The driver defines a table of command descriptors
(`RadleysCarouselConnectCommands`) and a device facade
(`RadleysCarouselConnect`) whose methods funnel through a generic
dispatcher `send`.  Only the device module is available as source; the
generic Validator, Frame Codec and simulation wrapper live in
`PyLabware.controllers`, so those are modelled from the specification
and marked as such.

Modelling choices:
- Python integers are `Int`.
- Python dynamic values that the claims need (an int, a string, `None`,
  a bound-method object) are the inductive `PyVal`.
- Exceptions are the inductive `PyError`; a fallible computation is
  `Except PyError α`.
- The outcome of one transport round trip for the STATUS query is an
  `Except PyError Int`: either the decoded integer reply or a raised
  `PLConnectionError`.
- Methods whose claims are about which command they dispatch are
  parameterised over an environment `env : SendCall → PyVal` and return
  the Python return value together with the list of dispatched calls.
-/

/-- Semantic argument/reply types appearing in the command table
(`int`, `float`, `str` in the source dictionaries). -/
inductive PyType where
  | int
  | float
  | str
deriving DecidableEq, Repr

/-- The reply-parsing functions referenced by the command table; the
source only ever uses `parser.slicer`. -/
inductive ParserFn where
  | slicer
deriving DecidableEq, Repr

/-- The `"reply"` sub-dictionary of a command descriptor: target type,
optional parsing function and its arguments (e.g. `[9, None]`). -/
structure ReplySpec where
  type : PyType
  parserFn : Option ParserFn := Option.none
  args : Option (List (Option Int)) := Option.none
deriving DecidableEq, Repr

/-- The `"check"` sub-dictionary of a command descriptor: inclusive
numeric bounds. -/
structure Bounds where
  min : Int
  max : Int
deriving DecidableEq, Repr

/-- One command descriptor, mirroring the dictionaries of
`RadleysCarouselConnectCommands`: literal command name, optional
argument type, optional bounds, optional reply specification. -/
structure CmdDescriptor where
  name : String
  argType : Option PyType := Option.none
  check : Option Bounds := Option.none
  reply : Option ReplySpec := Option.none
deriving DecidableEq, Repr

/-- Python dynamic values needed by the claims: integers, strings,
`None`, and a bound-method object (which compares unequal to any int or
string). -/
inductive PyVal where
  | intV (n : Int)
  | strV (s : String)
  | noneV
  | boundMethod (methodName : String)
deriving DecidableEq, Repr

/-- Exceptions of the driver: `PLConnectionError` and
`PLDeviceCommandError` from `PyLabware.exceptions`, Python `KeyError`
from dictionary lookup, and the `InvalidArgument`-class error the
Validator raises. -/
inductive PyError where
  | plConnectionError (msg : String)
  | keyErr (k : Int)
  | plInvalidArgument (msg : String)
  | plDeviceCommandError (msg : String)
deriving DecidableEq, Repr

namespace RadleysCarouselConnectCommands

/-- `DEFAULT_NAME = "Radleys Carousel Connect"` (source line 32). -/
def DEFAULT_NAME : String := "Radleys Carousel Connect"

/-- `STATUS = \x7b-1: "REMOTE BLOCKED", 0: "MANUAL", 1: "REMOTE START",
2: "REMOTE STOP"\x7d` (source line 36), as an association list. -/
def STATUS : List (Int × String) :=
  [(-1, "REMOTE BLOCKED"), (0, "MANUAL"), (1, "REMOTE START"), (2, "REMOTE STOP")]

/-- `SET_TEMP` descriptor (source lines 41-42): name `OUT_SP_1`, int
argument, bounds 20..300, float reply sliced from offset 9. -/
def SET_TEMP : CmdDescriptor :=
  { name := "OUT_SP_1"
    argType := some PyType.int
    check := some { min := 20, max := 300 }
    reply := some { type := PyType.float, parserFn := some ParserFn.slicer,
                    args := some [some 9, Option.none] } }

/-- `GET_PROBE_TEMP` descriptor (source line 54). -/
def GET_PROBE_TEMP : CmdDescriptor :=
  { name := "IN_PV_1"
    reply := some { type := PyType.float, parserFn := some ParserFn.slicer,
                    args := some [some 8, Option.none] } }

/-- `GET_HOTPLATE_TEMP` descriptor (source line 56). -/
def GET_HOTPLATE_TEMP : CmdDescriptor :=
  { name := "IN_PV_3"
    reply := some { type := PyType.float, parserFn := some ParserFn.slicer,
                    args := some [some 8, Option.none] } }

/-- `GET_SET_TEMP_SAFETY_DELTA` descriptor (source line 60). -/
def GET_SET_TEMP_SAFETY_DELTA : CmdDescriptor :=
  { name := "IN_SP_2"
    reply := some { type := PyType.float, parserFn := some ParserFn.slicer,
                    args := some [some 8, Option.none] } }

/-- `QUERY_STATUS` descriptor (source line 65): name `STATUS`, int
argument type, int reply sliced from offset 7. -/
def QUERY_STATUS : CmdDescriptor :=
  { name := "STATUS"
    argType := some PyType.int
    reply := some { type := PyType.int, parserFn := some ParserFn.slicer,
                    args := some [some 7, Option.none] } }

end RadleysCarouselConnectCommands

namespace RadleysCarouselConnect

open RadleysCarouselConnectCommands

/-- Protocol framing set in `__init__` (source line 106):
`self.command_terminator = "\r\n"`. -/
def command_terminator : String := "\r\n"

/-- Protocol framing set in `__init__` (source line 110):
`self.args_delimiter = " "`. -/
def args_delimiter : String := " "

/-- Python dictionary item access `d[k]`: the mapped value, or a raised
`KeyError` when the key is absent. -/
def dictGet (d : List (Int × String)) (k : Int) : Except PyError String :=
  match d.lookup k with
  | some v => Except.ok v
  | Option.none => Except.error (PyError.keyErr k)

/-- `get_status` (source lines 146-155).  `statusReply` is the outcome
of `self.send(self.cmd.QUERY_STATUS)`: the decoded integer reply, or a
raised `PLConnectionError`.  The body has no exception handler, so an
error outcome propagates unchanged.  In range `3 > reply > -2` the
reply is mapped through the `STATUS` dictionary; otherwise the literal
string `"ERROR"` is returned. -/
def get_status (statusReply : Except PyError Int) : Except PyError String :=
  match statusReply with
  | Except.error e => Except.error e
  | Except.ok reply =>
      if 3 > reply ∧ reply > -2 then dictGet STATUS reply
      else Except.ok "ERROR"

/-- `is_idle` (source lines 136-144).  Line 140 reads
`reply = self.get_status` with no call parentheses: it binds the
bound-method object itself, never invoking `get_status` nor the
transport, and then compares that object with the integer 1.  The
`statusReply` parameter (what a STATUS round trip would produce) is
therefore never consulted. -/
def is_idle (statusReply : Except PyError Int) : Bool :=
  let reply : PyVal := PyVal.boundMethod "get_status"
  if reply ≠ PyVal.intV 1 then false else true

/-- `is_connected` (source lines 121-134), inner body (the simulation
wrapper aside).  `statusReply` is the outcome of
`self.send(self.cmd.QUERY_STATUS)`.  The `try` block catches exactly
`PLConnectionError` and returns `False`; a decoded reply of `-1` or any
reply `< -1` returns `False`; every other reply returns `True`. -/
def is_connected (statusReply : Except PyError Int) : Except PyError Bool :=
  match statusReply with
  | Except.ok reply =>
      if reply = -1 then Except.ok false
      else if reply < -1 then Except.ok false
      else Except.ok true
  | Except.error (PyError.plConnectionError _) => Except.ok false
  | Except.error e => Except.error e

/-- One dispatched call: the command descriptor handed to `send`
together with its optional argument. -/
structure SendCall where
  cmd : CmdDescriptor
  arg : Option Int
deriving DecidableEq, Repr

/-- The dispatcher `self.send(cmd, arg?)` as seen by the facade
methods: the environment `env` supplies the decoded reply, and the call
is recorded in the trace. -/
def sendT (env : SendCall → PyVal) (cmd : CmdDescriptor) (arg : Option Int) :
    PyVal × List SendCall :=
  (env { cmd := cmd, arg := arg }, [{ cmd := cmd, arg := arg }])

/-- `get_temperature` (source lines 193-199): sensor 0 dispatches
`GET_HOTPLATE_TEMP`, sensor 1 dispatches `GET_PROBE_TEMP`, any other
sensor raises `PLDeviceCommandError` without dispatching anything. -/
def get_temperature (env : SendCall → PyVal) (sensor : Int) :
    Except PyError PyVal × List SendCall :=
  if sensor = 0 then
    let r := sendT env GET_HOTPLATE_TEMP Option.none
    (Except.ok r.1, r.2)
  else if sensor = 1 then
    let r := sendT env GET_PROBE_TEMP Option.none
    (Except.ok r.1, r.2)
  else
    (Except.error (PyError.plDeviceCommandError
      "Invalid sensor provided. Use 0 for hotplate or 1 for external probe"), [])

/-- `get_temperature_safety_delta` (source lines 201-202): it calls
`self.send(self.cmd.GET_SET_TEMP_SAFETY_DELTA)` but has no `return`
statement, so the Python method returns `None`. -/
def get_temperature_safety_delta (env : SendCall → PyVal) :
    PyVal × List SendCall :=
  let r := sendT env GET_SET_TEMP_SAFETY_DELTA Option.none
  (PyVal.noneV, r.2)

/-- `set_temperature` (source lines 187-188): the body is exactly
`self.send(self.cmd.SET_TEMP, temperature)`; the `sensor` parameter is
never read. -/
def set_temperature (env : SendCall → PyVal) (temperature : Int) (sensor : Int) :
    PyVal × List SendCall :=
  sendT env SET_TEMP (some temperature)

end RadleysCarouselConnect

/-- Modelled from the spec: the Dispatcher's argument Validator
(`PyLabware.controllers`, not under `src/`).  Per the specification it
fails with an `InvalidArgument` error if the argument's type does not
match the descriptor's `argument_type`, or if bounds are declared and
the argument falls outside `[min, max]` inclusive; otherwise it
accepts.  Stated here for an integer argument, whose type matches
exactly the descriptors declaring argument type `int`. -/
def validateArg (cmd : CmdDescriptor) (arg : Int) : Except PyError Unit :=
  if cmd.argType ≠ some PyType.int then
    Except.error (PyError.plInvalidArgument "argument type mismatch")
  else
    match cmd.check with
    | Option.none => Except.ok ()
    | some b =>
        if b.min ≤ arg ∧ arg ≤ b.max then Except.ok ()
        else Except.error (PyError.plInvalidArgument "argument out of bounds")

/-- Modelled from the spec: the Frame Codec's encoder
(`PyLabware.controllers`, not under `src/`).  Per the specification the
transmit string is the descriptor's `name`, optionally followed by the
argument delimiter and the stringified validated argument, followed by
the command terminator. -/
def encodeFrame (cmd : CmdDescriptor) (arg : Option String)
    (delim term : String) : String :=
  match arg with
  | some a => cmd.name ++ delim ++ a ++ term
  | Option.none => cmd.name ++ term

/-- Modelled from the spec: the `in_simulation_device_returns` wrapper
(`PyLabware.controllers`, not under `src/`).  Per the specification,
when the device runs in simulation mode the wrapped operation is not
executed at all and the fixed return value is substituted; otherwise
the wrapped body runs. -/
def in_simulation_device_returns (retval : PyVal) (simulation : Bool)
    (deviceMethod : Unit → PyVal) : PyVal :=
  if simulation then retval else deviceMethod ()

/-- `is_connected` as decorated in the source (line 121):
`@in_simulation_device_returns(RadleysCarouselConnectCommands.DEFAULT_NAME)`
applied to the method body. -/
def is_connected_sim (simulation : Bool) (body : Unit → PyVal) : PyVal :=
  in_simulation_device_returns
    (PyVal.strV RadleysCarouselConnectCommands.DEFAULT_NAME) simulation body

open RadleysCarouselConnectCommands RadleysCarouselConnect

/-- C1: the claim says `is_idle()` is true iff the decoded status code
equals 1 ("REMOTE START").  In the source (line 140) `get_status` is
referenced without call parentheses, so `is_idle` compares the
bound-method object with 1 and returns false unconditionally — even
when the STATUS reply is 1, where `get_status` decodes "REMOTE START"
and the claim requires true. -/
theorem is_idle_false_even_on_remote_start :
    is_idle (Except.ok 1) = false ∧
    (∀ statusReply : Except PyError Int, is_idle statusReply = false) ∧
    get_status (Except.ok 1) = Except.ok "REMOTE START" :=
  ⟨rfl, fun _ => rfl, rfl⟩

/-- C2 counterexample: the claim says `get_status` locally catches
`ConnectionError` and converts it to the sentinel "ERROR".  The body
has no exception handler: a `PLConnectionError` raised by the
underlying `send` propagates unchanged and is not converted. -/
theorem get_status_propagates_connection_error :
    get_status (Except.error (PyError.plConnectionError "timeout")) =
      Except.error (PyError.plConnectionError "timeout") ∧
    get_status (Except.error (PyError.plConnectionError "timeout")) ≠
      Except.ok "ERROR" :=
  ⟨rfl, fun h => Except.noConfusion h⟩

/-- C2 amended: `get_status` never raises for any decoded integer
reply — out-of-range status values are converted to the sentinel
"ERROR" rather than raising — but it does not catch `ConnectionError`:
an error outcome of the underlying `send` propagates unchanged. -/
theorem get_status_total_on_replies (r : Int) (e : PyError) :
    (∃ s, get_status (Except.ok r) = Except.ok s) ∧
    ((r ≤ -2 ∨ 3 ≤ r) → get_status (Except.ok r) = Except.ok "ERROR") ∧
    get_status (Except.error e) = Except.error e := by
  refine ⟨?_, ?_, rfl⟩
  · by_cases h : 3 > r ∧ r > -2
    · have hr : r = -1 ∨ r = 0 ∨ r = 1 ∨ r = 2 := by omega
      rcases hr with h1 | h1 | h1 | h1 <;> subst h1 <;> exact ⟨_, rfl⟩
    · exact ⟨"ERROR", by simp [get_status, h]⟩
  · intro hout
    have h : ¬ (3 > r ∧ r > -2) := by omega
    simp [get_status, h]

/-- C2 amended, witness. -/
theorem get_status_total_on_replies_witness :
    get_status (Except.ok 7) = Except.ok "ERROR" :=
  (get_status_total_on_replies 7 (PyError.keyErr 0)).2.1 (Or.inr (by norm_num))

/-- C3: the status decode table: reply -1 maps to "REMOTE BLOCKED",
0 to "MANUAL", 1 to "REMOTE START", 2 to "REMOTE STOP", and every
reply not strictly between -2 and 3 maps to the literal "ERROR". -/
theorem get_status_decode_table (r : Int) :
    (r = -1 → get_status (Except.ok r) = Except.ok "REMOTE BLOCKED") ∧
    (r = 0 → get_status (Except.ok r) = Except.ok "MANUAL") ∧
    (r = 1 → get_status (Except.ok r) = Except.ok "REMOTE START") ∧
    (r = 2 → get_status (Except.ok r) = Except.ok "REMOTE STOP") ∧
    ((r ≤ -2 ∨ 3 ≤ r) → get_status (Except.ok r) = Except.ok "ERROR") := by
  refine ⟨?_, ?_, ?_, ?_, ?_⟩ <;> intro h
  · subst h; rfl
  · subst h; rfl
  · subst h; rfl
  · subst h; rfl
  · have hn : ¬ (3 > r ∧ r > -2) := by omega
    simp [get_status, hn]

/-- C3, witness. -/
theorem get_status_decode_table_witness :
    get_status (Except.ok (-1)) = Except.ok "REMOTE BLOCKED" ∧
    get_status (Except.ok 0) = Except.ok "MANUAL" ∧
    get_status (Except.ok 2) = Except.ok "REMOTE STOP" ∧
    get_status (Except.ok (-2)) = Except.ok "ERROR" :=
  ⟨(get_status_decode_table (-1)).1 rfl,
   (get_status_decode_table 0).2.1 rfl,
   (get_status_decode_table 2).2.2.2.1 rfl,
   (get_status_decode_table (-2)).2.2.2.2 (Or.inl (by norm_num))⟩

/-- C4: `is_connected` returns false when the underlying `send` raises
`ConnectionError`, false when the decoded reply is -1 or any value
strictly below -1, and true in every other case — never raising. -/
theorem is_connected_cases (outcome : Except PyError Int) :
    (∀ msg, outcome = Except.error (PyError.plConnectionError msg) →
        is_connected outcome = Except.ok false) ∧
    (outcome = Except.ok (-1) → is_connected outcome = Except.ok false) ∧
    (∀ r, outcome = Except.ok r → r < -1 → is_connected outcome = Except.ok false) ∧
    (∀ r, outcome = Except.ok r → -1 < r → is_connected outcome = Except.ok true) := by
  refine ⟨?_, ?_, ?_, ?_⟩
  · intro msg h; subst h; rfl
  · intro h; subst h; rfl
  · intro r h hr; subst h
    simp [is_connected, hr, show r ≠ -1 by omega]
  · intro r h hr; subst h
    simp [is_connected, show r ≠ -1 by omega, show ¬ r < -1 by omega]

/-- C4, witness. -/
theorem is_connected_cases_witness :
    is_connected (Except.error (PyError.plConnectionError "port closed")) = Except.ok false ∧
    is_connected (Except.ok (-1)) = Except.ok false ∧
    is_connected (Except.ok (-3)) = Except.ok false ∧
    is_connected (Except.ok 2) = Except.ok true :=
  ⟨(is_connected_cases _).1 "port closed" rfl,
   (is_connected_cases _).2.1 rfl,
   (is_connected_cases _).2.2.1 (-3) rfl (by norm_num),
   (is_connected_cases _).2.2.2 2 rfl (by norm_num)⟩

/-- C5: `get_temperature` dispatches the hotplate-temperature command
for sensor 0, the external-probe-temperature command for sensor 1, and
for every other sensor raises `PLDeviceCommandError` while dispatching
nothing (empty trace, result independent of the environment). -/
theorem get_temperature_sensor_dispatch (env env2 : SendCall → PyVal) (s : Int) :
    (s = 0 → get_temperature env s =
      (Except.ok (env { cmd := GET_HOTPLATE_TEMP, arg := Option.none }),
       [{ cmd := GET_HOTPLATE_TEMP, arg := Option.none }])) ∧
    (s = 1 → get_temperature env s =
      (Except.ok (env { cmd := GET_PROBE_TEMP, arg := Option.none }),
       [{ cmd := GET_PROBE_TEMP, arg := Option.none }])) ∧
    (s ≠ 0 → s ≠ 1 →
      get_temperature env s =
        (Except.error (PyError.plDeviceCommandError
          "Invalid sensor provided. Use 0 for hotplate or 1 for external probe"), []) ∧
      get_temperature env s = get_temperature env2 s) := by
  refine ⟨?_, ?_, ?_⟩
  · intro h; subst h; rfl
  · intro h; subst h; rfl
  · intro h0 h1
    constructor <;> simp [get_temperature, h0, h1]

/-- C5, witness. -/
theorem get_temperature_sensor_dispatch_witness :
    get_temperature (fun _ => PyVal.noneV) 0 =
      (Except.ok PyVal.noneV, [{ cmd := GET_HOTPLATE_TEMP, arg := Option.none }]) ∧
    get_temperature (fun _ => PyVal.noneV) 1 =
      (Except.ok PyVal.noneV, [{ cmd := GET_PROBE_TEMP, arg := Option.none }]) ∧
    get_temperature (fun _ => PyVal.noneV) 2 =
      (Except.error (PyError.plDeviceCommandError
        "Invalid sensor provided. Use 0 for hotplate or 1 for external probe"), []) :=
  ⟨(get_temperature_sensor_dispatch (fun _ => PyVal.noneV) (fun _ => PyVal.noneV) 0).1 rfl,
   (get_temperature_sensor_dispatch (fun _ => PyVal.noneV) (fun _ => PyVal.noneV) 1).2.1 rfl,
   ((get_temperature_sensor_dispatch (fun _ => PyVal.noneV) (fun _ => PyVal.noneV) 2).2.2
      (by norm_num) (by norm_num)).1⟩

/-- C6: for the `SET_TEMP` descriptor with bounds [20, 300], the
Validator accepts every integer argument inside the inclusive bounds
and raises `InvalidArgument` for every argument strictly outside them;
validation is a pure check performed before any transmission. -/
theorem validateArg_SET_TEMP_bounds (x : Int) :
    (20 ≤ x ∧ x ≤ 300 → validateArg SET_TEMP x = Except.ok ()) ∧
    (x < 20 ∨ 300 < x →
      validateArg SET_TEMP x =
        Except.error (PyError.plInvalidArgument "argument out of bounds")) := by
  constructor
  · intro h
    simp [validateArg, SET_TEMP, h.1, h.2]
  · intro h
    have hn : ¬ (20 ≤ x ∧ x ≤ 300) := by omega
    simp [validateArg, SET_TEMP, hn]

/-- C6, witness. -/
theorem validateArg_SET_TEMP_bounds_witness :
    validateArg SET_TEMP 20 = Except.ok () ∧
    validateArg SET_TEMP 300 = Except.ok () ∧
    validateArg SET_TEMP 19 =
      Except.error (PyError.plInvalidArgument "argument out of bounds") ∧
    validateArg SET_TEMP 301 =
      Except.error (PyError.plInvalidArgument "argument out of bounds") :=
  ⟨(validateArg_SET_TEMP_bounds 20).1 (by norm_num),
   (validateArg_SET_TEMP_bounds 300).1 (by norm_num),
   (validateArg_SET_TEMP_bounds 19).2 (Or.inl (by norm_num)),
   (validateArg_SET_TEMP_bounds 301).2 (Or.inr (by norm_num))⟩

/-- C7: encoding the `SET_TEMP` descriptor (name "OUT_SP_1") with
argument 150, the configured argument delimiter " " and command
terminator CR LF yields exactly the frame "OUT_SP_1 150" followed by
CR LF. -/
theorem encode_SET_TEMP_150 :
    encodeFrame SET_TEMP (some (toString (150 : Int)))
      args_delimiter command_terminator = "OUT_SP_1 150\r\n" := by
  rfl

/-- C8: with simulation enabled, the wrapped `is_connected` returns the
device's declared default name as the substituted truthy sentinel, for
every possible body — the body (STATUS dispatch, transport access) is
never executed, so the result cannot depend on it. -/
theorem is_connected_sim_returns_default_name (body body2 : Unit → PyVal) :
    is_connected_sim true body = PyVal.strV "Radleys Carousel Connect" ∧
    is_connected_sim true body = is_connected_sim true body2 :=
  ⟨rfl, rfl⟩

/-- C9: `get_temperature_safety_delta` dispatches the
`GET_SET_TEMP_SAFETY_DELTA` command but, having no return statement,
always returns `None`, discarding the decoded reply. -/
theorem get_temperature_safety_delta_returns_none (env : SendCall → PyVal) :
    (get_temperature_safety_delta env).1 = PyVal.noneV ∧
    (get_temperature_safety_delta env).2 =
      [{ cmd := GET_SET_TEMP_SAFETY_DELTA, arg := Option.none }] :=
  ⟨rfl, rfl⟩

/-- C10: `set_temperature` ignores its `sensor` parameter entirely:
for every temperature and any two sensor values it dispatches exactly
the same `SET_TEMP` command with the temperature as argument and
produces the same result. -/
theorem set_temperature_sensor_independent (env : SendCall → PyVal) (t s1 s2 : Int) :
    set_temperature env t s1 = set_temperature env t s2 ∧
    set_temperature env t s1 =
      (env { cmd := SET_TEMP, arg := some t }, [{ cmd := SET_TEMP, arg := some t }]) :=
  ⟨rfl, rfl⟩
